import Mathlib

/-!
Shallow embedding of the intranett login backend
(`backend/app/auth/auth_service.py`, `backend/app/utils/validators.py`,
`backend/app/routes/auth_routes.py`, `backend/app/auth/decorators.py`)
together with theorems settling the spec claims about it.

Modelling conventions:
  - Python strings are Lean `String`; `str.strip()`, `str.upper()` and
    `str.lower()` are the structurally recursive `pyStrip`, `pyUpper` and
    `pyLower` below, so every definition evaluates inside the kernel.
  - Machine time (`datetime.utcnow()`) is an explicit `Int` parameter
    counting seconds; `timedelta(hours=h)` is `h * 3600`.
  - A nullable database column is `Option String`; Python truthiness-based
    `a or b` on such values is `pyOr` / `pyOrD` below (`None` and the empty
    string are falsy).
  - The Oracle query of `_validate_user_in_oracle`
    (`WHERE UPPER(cd_usuario) = UPPER(:cd_usuario) AND ROWNUM = 1`) is the
    first row of the table whose stored code matches case-insensitively.
    The code handles a dict-shaped and a tuple-shaped row with the same
    field extraction; the model captures that extraction once over a row
    with optional fields.
  - Exceptions are `Except String`; a `try/except` that swallows the error
    is a `match` whose `.error` branch continues normally.
-/

namespace Intranett

/-- Python `str.upper()` (ASCII, as in the codes handled here). -/
def pyUpper (s : String) : String :=
  ⟨s.data.map Char.toUpper⟩

/-- Python `str.lower()` (ASCII, as in the role tags handled here). -/
def pyLower (s : String) : String :=
  ⟨s.data.map Char.toLower⟩

/-- Python `str.strip()`: drop whitespace from both ends. -/
def pyStrip (s : String) : String :=
  ⟨((s.data.dropWhile Char.isWhitespace).reverse.dropWhile Char.isWhitespace).reverse⟩

/-- Python `a or b` on two nullable strings: `a` unless it is `None` or
empty, else `b`. -/
def pyOr (a b : Option String) : Option String :=
  match a with
  | some s => if s = "" then b else some s
  | none => b

/-- Python `a or d` where the fallback `d` is a plain string. -/
def pyOrD (a : Option String) (d : String) : String :=
  match a with
  | some s => if s = "" then d else s
  | none => d

/-- One row of `dbasgu.usuarios` as selected by `_validate_user_in_oracle`:
`cd_usuario` is the key column the `WHERE` clause filters on (a row only
matches when it is non-NULL), the remaining columns are nullable. -/
structure UserRow where
  cd_usuario : String
  nm_usuario : Option String
  cd_papel : Option String
  sn_ativo : Option String
  cd_senha : Option String
deriving DecidableEq, Repr

/-- The query of `_validate_user_in_oracle`: first row whose stored
`cd_usuario` equals the presented one case-insensitively
(`WHERE UPPER(cd_usuario) = UPPER(:cd_usuario) AND ROWNUM = 1`). -/
def findUser (db : List UserRow) (cd_usuario : String) : Option UserRow :=
  db.find? (fun r => pyUpper r.cd_usuario == pyUpper cd_usuario)

/-- The `UserData` dataclass of `auth_service.py`. -/
structure UserData where
  cd_usuario : String
  nome_usuario : String
  cd_multi_empresa : Int
  nome_empresa : String
  perfil : String
  ativo : Bool
  ultimo_acesso : Option Int
deriving DecidableEq, Repr

/-- `AuthService._validate_user_in_oracle` (auth_service.py lines 34-124):
look the user up case-insensitively, extract the row fields with the
Python `or`-fallback chains of lines 73-84, then apply the three checks of
lines 93-104 (active flag, missing secret, trimmed secret comparison).
Every failure returns `None`. -/
def validateUserInOracle (db : List UserRow) (cd_usuario password : String)
    (cd_multi_empresa : Int) : Option UserData :=
  match findUser db cd_usuario with
  | none => none
  | some row =>
    let cd_usuario_db := pyOrD (some row.cd_usuario) cd_usuario
    let nm_usuario_db := pyOrD row.nm_usuario cd_usuario
    let cd_papel_db := pyOrD row.cd_papel "user"
    let sn_ativo_db := pyOrD row.sn_ativo "N"
    let cd_senha_db := pyOr row.cd_senha none
    if sn_ativo_db ≠ "S" then none
    else
      match cd_senha_db with
      | none => none
      | some senha =>
        if pyStrip senha ≠ pyStrip password then none
        else some {
          cd_usuario := cd_usuario_db
          nome_usuario := pyOrD (some nm_usuario_db) cd_usuario_db
          cd_multi_empresa := cd_multi_empresa
          nome_empresa := "Empresa " ++ toString cd_multi_empresa
          perfil := pyOrD (some cd_papel_db) "user"
          ativo := true
          ultimo_acesso := none }

/-- The claims payload built by `_generate_jwt_token` and returned by
`verify_token`. -/
structure Payload where
  cd_usuario : String
  nome_usuario : String
  cd_multi_empresa : Int
  nome_empresa : String
  perfil : String
  iat : Int
  exp : Int
deriving DecidableEq, Repr

/-- A JWT as handled by this service: either a payload signed with a key,
or an unparseable string. -/
inductive Token where
  | signed (payload : Payload) (key : String)
  | malformed (raw : String)
deriving DecidableEq, Repr

/-- Outcome of `jwt.decode`. -/
inductive DecodeResult where
  | ok (payload : Payload)
  | expiredSignature
  | invalidToken
deriving DecidableEq, Repr

/-- Modelled from the spec: `jwt.decode(token, key, algorithms=[..])` of the
PyJWT library, which is not part of this repository. It rejects a token
whose signature key does not match as invalid, and rejects on expiry with
the boundary of the spec: a token is expired exactly when
`expiresAt ≤ now` (`now == expiresAt` is already expired). -/
def jwtDecode (t : Token) (key : String) (now : Int) : DecodeResult :=
  match t with
  | .malformed _ => .invalidToken
  | .signed p k =>
    if k ≠ key then .invalidToken
    else if p.exp ≤ now then .expiredSignature
    else .ok p

/-- `jwt.encode(payload, key, algorithm=..)`: the signed token. -/
def jwtEncode (p : Payload) (key : String) : Token :=
  .signed p key

/-- The `AppConfig` fields the auth service reads. -/
structure AppConfig where
  secret_key : String
  jwt_expiration_hours : Int
deriving DecidableEq, Repr

/-- `AuthService._generate_jwt_token` (lines 126-139): payload copies the
user fields, `iat` is now, `exp` is now plus the configured hours. -/
def generateJwtToken (cfg : AppConfig) (user_data : UserData) (now : Int) : Token :=
  jwtEncode {
    cd_usuario := user_data.cd_usuario
    nome_usuario := user_data.nome_usuario
    cd_multi_empresa := user_data.cd_multi_empresa
    nome_empresa := user_data.nome_empresa
    perfil := user_data.perfil
    iat := now
    exp := now + cfg.jwt_expiration_hours * 3600 } cfg.secret_key

/-- `AuthService.verify_token` (lines 200-211): decode, and map both
`ExpiredSignatureError` and `InvalidTokenError` to `None`. -/
def verifyToken (cfg : AppConfig) (token : Token) (now : Int) : Option Payload :=
  match jwtDecode token cfg.secret_key now with
  | .ok p => some p
  | .expiredSignature => none
  | .invalidToken => none

/-- `AuthService.refresh_token` (lines 213-228): verify, drop the old
`iat`/`exp`, re-encode with fresh ones. -/
def refreshToken (cfg : AppConfig) (old_token : Token) (now : Int) : Option Token :=
  match verifyToken cfg old_token now with
  | none => none
  | some payload =>
      some (jwtEncode
        { payload with iat := now, exp := now + cfg.jwt_expiration_hours * 3600 }
        cfg.secret_key)

/-- Result dictionary of `AuthService.authenticate`. -/
inductive AuthResult where
  | failure (error code : String)
  | success (token : Token) (user : UserData)
deriving DecidableEq, Repr

/-- `AuthService.authenticate` (lines 141-198): empty user or password →
`MISSING_CREDENTIALS`; falsy company (the integer 0) → `MISSING_COMPANY`;
Oracle validation failure → `INVALID_CREDENTIALS`; otherwise a token and
the user data. -/
def authenticate (cfg : AppConfig) (db : List UserRow) (cd_usuario password : String)
    (cd_multi_empresa : Int) (now : Int) : AuthResult :=
  if cd_usuario = "" ∨ password = "" then
    .failure "Usuario e senha sao obrigatorios" "MISSING_CREDENTIALS"
  else if cd_multi_empresa = 0 then
    .failure "Empresa e obrigatoria" "MISSING_COMPANY"
  else
    match validateUserInOracle db cd_usuario password cd_multi_empresa with
    | none => .failure "Credenciais invalidas ou usuario inativo" "INVALID_CREDENTIALS"
    | some user_data => .success (generateJwtToken cfg user_data now) user_data

/-- `validate_login_data` (validators.py lines 9-60), on a request whose
`cdMultiEmpresa` field is an integer (or absent). Messages keep the
source's wording without accents or quotes. Returns `none` when valid. -/
def validateLoginData (cd_usuario password : String) (cd_multi_empresa : Option Int) :
    Option String :=
  if cd_usuario = "" then some "Campo cdUsuario e obrigatorio"
  else if pyStrip cd_usuario = "" then some "Campo cdUsuario nao pode estar vazio"
  else if (pyStrip cd_usuario).length > 30 then
    some "Campo cdUsuario deve ter no maximo 30 caracteres"
  else if ¬ ((pyStrip cd_usuario).data.all fun c => c.isAlphanum || c = '_') then
    some "Campo cdUsuario deve conter apenas letras, numeros e underscore"
  else if password = "" then some "Campo password e obrigatorio"
  else if pyStrip password = "" then some "Campo password nao pode estar vazio"
  else if (pyStrip password).length > 100 then some "Campo password muito longo"
  else
    match cd_multi_empresa with
    | none => some "Campo cdMultiEmpresa e obrigatorio"
    | some empresa_int =>
      if empresa_int ≤ 0 then
        some "Campo cdMultiEmpresa deve ser um numero positivo"
      else if empresa_int > 9999 then
        some "Campo cdMultiEmpresa deve ser menor que 10000"
      else none

/-- `AuthService.log_access` (lines 230-270): the audit insert may fail,
but both the inner `except` around the insert and the outer `except`
swallow the failure, so the call always returns normally. The `audit`
argument is the outcome of the attempted `INSERT INTO log_acessos`. -/
def logAccess (audit : Except String Unit) : Except String Unit :=
  match audit with
  | .error _ => .ok ()
  | .ok _ => .ok ()

/-- HTTP-level response of the login route. -/
inductive LoginResponse where
  | err (message : String) (code : Int) (error_code : String)
  | ok (token : Token) (user : UserData)
deriving DecidableEq, Repr

/-- The `login` route (auth_routes.py lines 57-201) after JSON extraction:
validate the fields, authenticate with the user code upper-cased and both
credentials stripped (line 148-149), map auth failures to 401/400, and on
success attempt the best-effort access log before answering 200. -/
def login (cfg : AppConfig) (db : List UserRow) (cd_usuario password : String)
    (cd_multi_empresa : Int) (now : Int) (audit : Except String Unit) : LoginResponse :=
  match validateLoginData cd_usuario password (some cd_multi_empresa) with
  | some msg => .err msg 400 "VALIDATION_ERROR"
  | none =>
    match authenticate cfg db (pyUpper (pyStrip cd_usuario)) (pyStrip password)
        cd_multi_empresa now with
    | .failure error code =>
        .err error
          (if code = "INVALID_CREDENTIALS" ∨ code = "USER_INACTIVE" then 401 else 400)
          code
    | .success token user =>
        match logAccess audit with
        | .error _ => .ok token user
        | .ok _ => .ok token user

/-- The per-request identity context `g.current_user` populated by
`require_auth` (decorators.py lines 63-70). -/
structure CurrentUser where
  cdUsuario : String
  nomeUsuario : String
  cdMultiEmpresa : Int
  nomeEmpresa : String
  perfil : String
deriving DecidableEq, Repr

/-- Decision of an access-guard decorator. -/
inductive GuardDecision where
  | reject (message : String) (code : Int) (error_code : String)
  | proceed
deriving DecidableEq, Repr

/-- `require_role` (decorators.py lines 87-138): no identity context →
401 `NOT_AUTHENTICATED`; otherwise compare the lower-cased role against
the lower-cased allow-list, rejecting 403 `INSUFFICIENT_ROLE` on no
match. -/
def requireRole (allowed_roles : List String) (current_user : Option CurrentUser) :
    GuardDecision :=
  match current_user with
  | none => .reject "Usuario nao autenticado" 401 "NOT_AUTHENTICATED"
  | some cu =>
    let user_role := pyLower cu.perfil
    let allowed_roles_lower := allowed_roles.map pyLower
    if allowed_roles_lower.contains user_role then .proceed
    else
      .reject ("Acesso negado. Perfis permitidos: " ++ String.intercalate ", " allowed_roles)
        403 "INSUFFICIENT_ROLE"

/-- A sample active store record used to instantiate the theorems. -/
def sampleRow : UserRow :=
  ⟨"F04821", some "Fulano", some "admin", some "S", some "secret"⟩

/-- A sample store holding just `sampleRow`. -/
def sampleDb : List UserRow := [sampleRow]

/-- A sample configuration: key `"k"`, one-hour token lifetime. -/
def sampleCfg : AppConfig := ⟨"k", 1⟩

/-- A sample authenticated user. -/
def sampleUser : UserData :=
  ⟨"F04821", "Fulano", 1, "Empresa 1", "admin", true, none⟩

/-- A sample token payload whose expiry is instant 0. -/
def samplePayload : Payload :=
  ⟨"F04821", "Fulano", 1, "Empresa 1", "admin", -3600, 0⟩

/-- A sample store record with an active flag but no stored secret. -/
def rowNoSecret : UserRow :=
  ⟨"G99999", some "Sem Senha", some "user", some "S", none⟩

/-- A sample request identity context. -/
def sampleCtx : CurrentUser := ⟨"F04821", "Fulano", 1, "Empresa 1", "x"⟩

/-! ### Helper lemmas about `_validate_user_in_oracle` -/

/-- The lookup result depends on the presented user code only through its
upper-casing: the `WHERE UPPER(..) = UPPER(..)` clause. -/
theorem findUser_congr (db : List UserRow) (u₁ u₂ : String)
    (h : pyUpper u₁ = pyUpper u₂) : findUser db u₁ = findUser db u₂ := by
  unfold findUser
  simp only [h]

/-- No row found: validation fails. -/
theorem validate_none_of_not_found (db : List UserRow) (u p : String) (e : Int)
    (h : findUser db u = none) : validateUserInOracle db u p e = none := by
  unfold validateUserInOracle
  rw [h]

/-- Row found but the extracted active flag is not `"S"`: validation
fails. -/
theorem validate_none_of_inactive (db : List UserRow) (u p : String) (e : Int)
    (row : UserRow) (hf : findUser db u = some row)
    (h : pyOrD row.sn_ativo "N" ≠ "S") : validateUserInOracle db u p e = none := by
  unfold validateUserInOracle
  rw [hf]
  simp [h]

/-- Row found and active but the extracted secret is null: validation
fails. -/
theorem validate_none_of_no_secret (db : List UserRow) (u p : String) (e : Int)
    (row : UserRow) (hf : findUser db u = some row)
    (h : pyOr row.cd_senha none = none) : validateUserInOracle db u p e = none := by
  unfold validateUserInOracle
  rw [hf]
  simp only [h]
  split <;> rfl

/-- Row found, active, secret present but its trimmed value differs from
the trimmed presented password: validation fails. -/
theorem validate_none_of_wrong_secret (db : List UserRow) (u p : String) (e : Int)
    (row : UserRow) (senha : String) (hf : findUser db u = some row)
    (hact : pyOrD row.sn_ativo "N" = "S")
    (hsen : pyOr row.cd_senha none = some senha)
    (h : pyStrip senha ≠ pyStrip p) : validateUserInOracle db u p e = none := by
  unfold validateUserInOracle
  rw [hf]
  simp [hact, hsen, h]

/-- Row found, active, secret present and matching after trimming: the
exact `UserData` the code builds. -/
theorem validate_success_shape (db : List UserRow) (u p : String) (e : Int)
    (row : UserRow) (senha : String) (hf : findUser db u = some row)
    (hact : pyOrD row.sn_ativo "N" = "S")
    (hsen : pyOr row.cd_senha none = some senha)
    (hmatch : pyStrip senha = pyStrip p) :
    validateUserInOracle db u p e = some {
      cd_usuario := pyOrD (some row.cd_usuario) u
      nome_usuario := pyOrD (some (pyOrD row.nm_usuario u)) (pyOrD (some row.cd_usuario) u)
      cd_multi_empresa := e
      nome_empresa := "Empresa " ++ toString e
      perfil := pyOrD (some (pyOrD row.cd_papel "user")) "user"
      ativo := true
      ultimo_acesso := none } := by
  unfold validateUserInOracle
  rw [hf]
  simp [hact, hsen, hmatch]

/-- Whatever succeeds carries the caller-supplied company code. -/
theorem validate_some_company (db : List UserRow) (u p : String) (e : Int)
    (ud : UserData) (h : validateUserInOracle db u p e = some ud) :
    ud.cd_multi_empresa = e := by
  unfold validateUserInOracle at h
  cases hf : findUser db u with
  | none => rw [hf] at h; exact absurd h (by simp)
  | some row =>
    rw [hf] at h
    dsimp only at h
    split at h
    · exact absurd h (by simp)
    · split at h
      · exact absurd h (by simp)
      · split at h
        · exact absurd h (by simp)
        · cases h
          rfl

/-- Authentication maps any Oracle-validation failure to the single
`INVALID_CREDENTIALS` result, provided the basic checks pass. -/
theorem authenticate_invalid_of_validate_none (cfg : AppConfig) (db : List UserRow)
    (u p : String) (e now : Int) (hu : u ≠ "") (hp : p ≠ "") (he : e ≠ 0)
    (h : validateUserInOracle db u p e = none) :
    authenticate cfg db u p e now =
      .failure "Credenciais invalidas ou usuario inativo" "INVALID_CREDENTIALS" := by
  unfold authenticate
  simp [hu, hp, he, h]

/-! ### Claim theorems -/

/-- C1: for every login attempt with non-empty credentials and a non-zero
company code, the three failure causes — user record not found, record
found but inactive (active flag not `"S"`), and presented secret not equal
to the stored secret after trimming — all produce the identical
`INVALID_CREDENTIALS` failure, so the caller cannot tell them apart. -/
theorem c1_three_failure_causes_indistinguishable (cfg : AppConfig)
    (db : List UserRow) (u p : String) (e now : Int)
    (hu : u ≠ "") (hp : p ≠ "") (he : e ≠ 0) :
    (findUser db u = none →
      authenticate cfg db u p e now =
        .failure "Credenciais invalidas ou usuario inativo" "INVALID_CREDENTIALS")
    ∧ (∀ row, findUser db u = some row → pyOrD row.sn_ativo "N" ≠ "S" →
      authenticate cfg db u p e now =
        .failure "Credenciais invalidas ou usuario inativo" "INVALID_CREDENTIALS")
    ∧ (∀ row senha, findUser db u = some row → pyOrD row.sn_ativo "N" = "S" →
        pyOr row.cd_senha none = some senha → pyStrip senha ≠ pyStrip p →
      authenticate cfg db u p e now =
        .failure "Credenciais invalidas ou usuario inativo" "INVALID_CREDENTIALS") := by
  refine ⟨fun h => ?_, fun row hf h => ?_, fun row senha hf hact hsen h => ?_⟩
  · exact authenticate_invalid_of_validate_none cfg db u p e now hu hp he
      (validate_none_of_not_found db u p e h)
  · exact authenticate_invalid_of_validate_none cfg db u p e now hu hp he
      (validate_none_of_inactive db u p e row hf h)
  · exact authenticate_invalid_of_validate_none cfg db u p e now hu hp he
      (validate_none_of_wrong_secret db u p e row senha hf hact hsen h)

/-- C1 witness: a concrete attempt against an empty store yields
`INVALID_CREDENTIALS`. -/
theorem c1_witness :
    authenticate sampleCfg [] "F04821" "secret" 1 0 =
      .failure "Credenciais invalidas ou usuario inativo" "INVALID_CREDENTIALS" :=
  (c1_three_failure_causes_indistinguishable sampleCfg [] "F04821" "secret" 1 0
    (by decide) (by decide) (by decide)).1 (by rfl)

/-- C2 counterexample: companyCode 10000 lies inside the range 1–999999 the
claim says passes validation, yet `validate_login_data` rejects it. -/
theorem c2_counterexample :
    ((1 : Int) ≤ 10000 ∧ (10000 : Int) ≤ 999999)
    ∧ validateLoginData "F04821" "secret" (some 10000) =
        some "Campo cdMultiEmpresa deve ser menor que 10000" :=
  ⟨by decide, by rfl⟩

/-- C2 amended: for requests whose user code and password pass their own
checks, a companyCode outside 1–9999 (not 1–999999) is rejected with a
400 `VALIDATION_ERROR` response that is computed without consulting the
store (the response is the same for every store), and every companyCode
within 1–9999 passes the validation. -/
theorem c2_company_range_amended (cfg : AppConfig) (db₁ db₂ : List UserRow)
    (u p : String) (e now : Int) (audit : Except String Unit)
    (hu1 : u ≠ "") (hu2 : pyStrip u ≠ "")
    (hu3 : ¬ (pyStrip u).length > 30)
    (hu4 : ((pyStrip u).data.all fun c => c.isAlphanum || c = '_') = true)
    (hp1 : p ≠ "") (hp2 : pyStrip p ≠ "")
    (hp3 : ¬ (pyStrip p).length > 100) :
    ((e < 1 ∨ 9999 < e) →
        validateLoginData u p (some e) ≠ none
      ∧ login cfg db₁ u p e now audit =
          .err (if e ≤ 0 then "Campo cdMultiEmpresa deve ser um numero positivo"
                else "Campo cdMultiEmpresa deve ser menor que 10000")
            400 "VALIDATION_ERROR"
      ∧ login cfg db₁ u p e now audit = login cfg db₂ u p e now audit)
    ∧ (1 ≤ e ∧ e ≤ 9999 → validateLoginData u p (some e) = none) := by
  have hval : ∀ e' : Int, validateLoginData u p (some e') =
      (if e' ≤ 0 then some "Campo cdMultiEmpresa deve ser um numero positivo"
       else if e' > 9999 then some "Campo cdMultiEmpresa deve ser menor que 10000"
       else none) := by
    intro e'
    unfold validateLoginData
    simp [hu1, hu2, hu3, hu4, hp1, hp2, hp3]
  constructor
  · intro he
    have he' : e ≤ 0 ∨ 9999 < e := by omega
    have hsome : validateLoginData u p (some e) =
        some (if e ≤ 0 then "Campo cdMultiEmpresa deve ser um numero positivo"
              else "Campo cdMultiEmpresa deve ser menor que 10000") := by
      rcases he' with h | h
      · simp [hval e, h]
      · have h' : ¬ e ≤ 0 := by omega
        simp [hval e, h', h]
    refine ⟨by rw [hsome]; simp, ?_, ?_⟩
    · unfold login
      rw [hsome]
    · unfold login
      rw [hsome]
  · rintro ⟨h1, h2⟩
    rw [hval e, if_neg (by omega), if_neg (by omega)]

/-- C2 witness: with companyCode 0 the login response is store-independent
(here: empty store versus the sample store). -/
theorem c2_witness :
    login sampleCfg [] "F04821" "secret" 0 0 (Except.ok ()) =
      login sampleCfg sampleDb "F04821" "secret" 0 0 (Except.ok ()) :=
  ((c2_company_range_amended sampleCfg [] sampleDb "F04821" "secret" 0 0 (Except.ok ())
    (by decide) (by decide) (by decide) (by decide) (by decide) (by decide)
    (by decide)).1 (Or.inl (by decide))).2.2

/-- C3: the store lookup filters only by user code, never by company:
whether Oracle validation succeeds is independent of the supplied company
code, and on success both the returned user data and the claims embedded
in the issued token carry the caller-supplied company code verbatim. -/
theorem c3_company_code_passthrough (cfg : AppConfig) (db : List UserRow)
    (u p : String) (e e' now : Int) :
    ((validateUserInOracle db u p e).isSome = (validateUserInOracle db u p e').isSome)
    ∧ (∀ ud, validateUserInOracle db u p e = some ud → ud.cd_multi_empresa = e)
    ∧ (∀ pl k ud, authenticate cfg db u p e now = .success (.signed pl k) ud →
        pl.cd_multi_empresa = e ∧ ud.cd_multi_empresa = e) := by
  refine ⟨?_, fun ud h => validate_some_company db u p e ud h, ?_⟩
  · unfold validateUserInOracle
    cases findUser db u with
    | none => rfl
    | some row =>
      dsimp only
      split
      · rfl
      · cases pyOr row.cd_senha none with
        | none => rfl
        | some senha =>
          dsimp only
          split <;> rfl
  · intro pl k ud h
    unfold authenticate at h
    split at h
    · exact absurd h (by simp)
    · split at h
      · exact absurd h (by simp)
      · cases hv : validateUserInOracle db u p e with
        | none => rw [hv] at h; exact absurd h (by simp)
        | some ud' =>
          rw [hv] at h
          have hc := validate_some_company db u p e ud' hv
          unfold generateJwtToken jwtEncode at h
          cases h
          exact ⟨hc, hc⟩

/-- C3 witness: the sample user authenticates for company 5 just as for
company 7, and the successful result carries the supplied company code. -/
theorem c3_witness :
    (validateUserInOracle sampleDb "F04821" "secret" 5).isSome =
      (validateUserInOracle sampleDb "F04821" "secret" 7).isSome
    ∧ (validateUserInOracle sampleDb "F04821" "secret" 5).isSome = true :=
  ⟨(c3_company_code_passthrough sampleCfg sampleDb "F04821" "secret" 5 7 0).1,
   by rfl⟩

/-- C4: issue-then-verify round-trip: for any positive configured lifetime,
verifying a token just issued from a user's data returns claims equal to
that data in every field except the freshly set `iat` and `exp`. -/
theorem c4_issue_verify_roundtrip (cfg : AppConfig) (ud : UserData) (now : Int)
    (h : 0 < cfg.jwt_expiration_hours) :
    verifyToken cfg (generateJwtToken cfg ud now) now =
      some { cd_usuario := ud.cd_usuario, nome_usuario := ud.nome_usuario,
             cd_multi_empresa := ud.cd_multi_empresa, nome_empresa := ud.nome_empresa,
             perfil := ud.perfil, iat := now,
             exp := now + cfg.jwt_expiration_hours * 3600 } := by
  have hexp : ¬ (now + cfg.jwt_expiration_hours * 3600 ≤ now) := by
    have : 0 < cfg.jwt_expiration_hours * 3600 := by positivity
    omega
  unfold verifyToken generateJwtToken jwtEncode jwtDecode
  simp [hexp]

/-- C4 witness: the round-trip at the sample configuration. -/
theorem c4_witness :
    verifyToken sampleCfg (generateJwtToken sampleCfg sampleUser 0) 0 =
      some ⟨"F04821", "Fulano", 1, "Empresa 1", "admin", 0, 3600⟩ := by
  rw [c4_issue_verify_roundtrip sampleCfg sampleUser 0 (by decide)]
  decide

/-- C5: a token whose expiry is not in the future is rejected: decoding
reports an expired signature — already at the boundary `now = exp` — and
`verify_token` maps that to a failure (`None`). -/
theorem c5_expired_token_rejected (cfg : AppConfig) (p : Payload) (now : Int)
    (h : p.exp ≤ now) :
    jwtDecode (.signed p cfg.secret_key) cfg.secret_key now = .expiredSignature
    ∧ verifyToken cfg (.signed p cfg.secret_key) now = none := by
  constructor
  · unfold jwtDecode
    simp [h]
  · unfold verifyToken jwtDecode
    simp [h]

/-- C5 witness: the boundary case `now = exp = 0` is already expired. -/
theorem c5_witness :
    jwtDecode (.signed samplePayload sampleCfg.secret_key) sampleCfg.secret_key 0 =
      .expiredSignature
    ∧ verifyToken sampleCfg (.signed samplePayload sampleCfg.secret_key) 0 = none :=
  c5_expired_token_rejected sampleCfg samplePayload 0 (by decide)

/-- C6 counterexample: a token refreshed at the very instant it was issued
is still valid, and `refresh_token` succeeds but returns a token with the
same `iat` and `exp` as the original — not strictly later ones. -/
theorem c6_counterexample :
    (verifyToken sampleCfg (generateJwtToken sampleCfg sampleUser 0) 0).isSome = true
    ∧ refreshToken sampleCfg (generateJwtToken sampleCfg sampleUser 0) 0 =
        some (generateJwtToken sampleCfg sampleUser 0) :=
  ⟨by rfl, by rfl⟩

/-- C6 amended: refreshing a token that is still valid at a refresh time
strictly after its issue time yields a token whose claims equal the
original's except `iat` and `exp`, both strictly later (at the same
instant they are merely reproduced unchanged); refreshing a malformed
token, or one whose expiry has passed, fails exactly as `verify` does. -/
theorem c6_refresh_amended (cfg : AppConfig) (ud : UserData) (t tr : Int) (raw : String)
    (hvalid : tr < t + cfg.jwt_expiration_hours * 3600) (hlater : t < tr) :
    (refreshToken cfg (generateJwtToken cfg ud t) tr =
        some (.signed { cd_usuario := ud.cd_usuario, nome_usuario := ud.nome_usuario,
                        cd_multi_empresa := ud.cd_multi_empresa,
                        nome_empresa := ud.nome_empresa, perfil := ud.perfil,
                        iat := tr, exp := tr + cfg.jwt_expiration_hours * 3600 }
          cfg.secret_key)
      ∧ t < tr ∧ t + cfg.jwt_expiration_hours * 3600 < tr + cfg.jwt_expiration_hours * 3600)
    ∧ refreshToken cfg (.malformed raw) tr = none
    ∧ (∀ q : Payload, q.exp ≤ tr →
        refreshToken cfg (.signed q cfg.secret_key) tr = none) := by
  refine ⟨⟨?_, hlater, by omega⟩, by rfl, fun q hq => ?_⟩
  · have hexp : ¬ (t + cfg.jwt_expiration_hours * 3600 ≤ tr) := by omega
    unfold refreshToken verifyToken generateJwtToken jwtEncode jwtDecode
    simp [hexp]
  · unfold refreshToken verifyToken jwtDecode
    simp [hq]

/-- C6 witness: refresh one second after issuance advances both
timestamps. -/
theorem c6_witness :
    refreshToken sampleCfg (generateJwtToken sampleCfg sampleUser 0) 1 =
      some (.signed ⟨"F04821", "Fulano", 1, "Empresa 1", "admin", 1, 3601⟩
        sampleCfg.secret_key) := by
  have h := (c6_refresh_amended sampleCfg sampleUser 0 1 "x" (by decide) (by decide)).1.1
  rw [h]
  decide

/-- C7: the lookup is case-insensitive on the user code, and for an active
record with a matching trimmed secret the verification succeeds with the
returned claims' user code equal to the record's stored code — the same
consistent normalization (the stored code verbatim) regardless of the case
in which the user code was presented. -/
theorem c7_case_insensitive_lookup (db : List UserRow) (row : UserRow)
    (u₁ u₂ p : String) (e : Int) (senha : String)
    (hcase : pyUpper u₁ = pyUpper u₂)
    (hf : findUser db u₁ = some row)
    (hcd : row.cd_usuario ≠ "")
    (hact : pyOrD row.sn_ativo "N" = "S")
    (hsen : pyOr row.cd_senha none = some senha)
    (hmatch : pyStrip senha = pyStrip p) :
    findUser db u₂ = some row
    ∧ (validateUserInOracle db u₁ p e).map UserData.cd_usuario = some row.cd_usuario
    ∧ (validateUserInOracle db u₂ p e).map UserData.cd_usuario = some row.cd_usuario := by
  have hf₂ : findUser db u₂ = some row := by
    rw [← findUser_congr db u₁ u₂ hcase]
    exact hf
  have hdb : pyOrD (some row.cd_usuario) u₁ = row.cd_usuario := by
    unfold pyOrD
    simp [hcd]
  have hdb₂ : pyOrD (some row.cd_usuario) u₂ = row.cd_usuario := by
    unfold pyOrD
    simp [hcd]
  refine ⟨hf₂, ?_, ?_⟩
  · rw [validate_success_shape db u₁ p e row senha hf hact hsen hmatch]
    simp [hdb]
  · rw [validate_success_shape db u₂ p e row senha hf₂ hact hsen hmatch]
    simp [hdb₂]

/-- C7 witness: presenting the code lower-cased or as stored both succeed
against the sample record and both return its stored code `"F04821"`. -/
theorem c7_witness :
    findUser sampleDb "F04821" = some sampleRow
    ∧ (validateUserInOracle sampleDb "f04821" "secret" 1).map UserData.cd_usuario =
        some sampleRow.cd_usuario
    ∧ (validateUserInOracle sampleDb "F04821" "secret" 1).map UserData.cd_usuario =
        some sampleRow.cd_usuario :=
  c7_case_insensitive_lookup sampleDb sampleRow "f04821" "F04821" "secret" 1 "secret"
    (by decide) (by rfl) (by decide) (by rfl) (by rfl) (by rfl)

/-- C8: the role filter answers `NOT_AUTHENTICATED` (401) when no identity
context was populated; with a context it accepts exactly when the
lower-cased role is in the lower-cased allow-list and otherwise rejects
with `INSUFFICIENT_ROLE` (403); in particular the allow-list `["admin"]`
rejects role `"user"` and accepts role `"ADMIN"`. -/
theorem c8_role_filter (allowed_roles : List String) (cu : CurrentUser) :
    requireRole allowed_roles none =
      .reject "Usuario nao autenticado" 401 "NOT_AUTHENTICATED"
    ∧ (requireRole allowed_roles (some cu) = .proceed ↔
        (allowed_roles.map pyLower).contains (pyLower cu.perfil) = true)
    ∧ (requireRole allowed_roles (some cu) ≠ .proceed →
        requireRole allowed_roles (some cu) =
          .reject ("Acesso negado. Perfis permitidos: " ++
              String.intercalate ", " allowed_roles)
            403 "INSUFFICIENT_ROLE")
    ∧ requireRole ["admin"] (some { cu with perfil := "user" }) =
        .reject "Acesso negado. Perfis permitidos: admin" 403 "INSUFFICIENT_ROLE"
    ∧ requireRole ["admin"] (some { cu with perfil := "ADMIN" }) = .proceed := by
  refine ⟨rfl, ?_, ?_, by rfl, by rfl⟩
  · unfold requireRole
    dsimp only
    split <;> rename_i hc
    · exact ⟨fun _ => hc, fun _ => rfl⟩
    · simp only [Bool.not_eq_true] at hc
      refine ⟨fun h => absurd h (by simp), fun h => ?_⟩
      rw [h] at hc
      exact absurd hc (by decide)
  · intro h
    by_cases hc : (allowed_roles.map pyLower).contains (pyLower cu.perfil) = true
    · exact absurd (by unfold requireRole; dsimp only; rw [if_pos hc]) h
    · unfold requireRole
      dsimp only
      rw [if_neg hc]

/-- C8 witness: with a populated context of role `"user"`, the filter
`["admin"]` rejects with 403 `INSUFFICIENT_ROLE`. -/
theorem c8_witness :
    requireRole ["admin"] (some { sampleCtx with perfil := "user" }) =
      .reject "Acesso negado. Perfis permitidos: admin" 403 "INSUFFICIENT_ROLE" :=
  (c8_role_filter ["admin"] { sampleCtx with perfil := "user" }).2.2.1 (by decide)

/-- C9: the best-effort access-log side effect can never change the login
outcome: `log_access` returns normally whatever the audit insert does, and
the login response is the same for any two behaviors of the audit
effect — in particular for a failing and a succeeding one. -/
theorem c9_best_effort_logging (cfg : AppConfig) (db : List UserRow) (u p : String)
    (e now : Int) (audit audit' : Except String Unit) :
    logAccess audit = Except.ok ()
    ∧ login cfg db u p e now audit = login cfg db u p e now audit' := by
  constructor
  · cases audit <;> rfl
  · unfold login
    cases validateLoginData u p (some e) with
    | some msg => rfl
    | none =>
      dsimp only
      cases authenticate cfg db (pyUpper (pyStrip u)) (pyStrip p) e now with
      | failure error code => rfl
      | success token user =>
        dsimp only
        cases h : logAccess audit <;> cases h' : logAccess audit' <;> rfl

/-- C10 counterexample: against an active record with no stored secret, an
empty presented password is answered with `MISSING_CREDENTIALS`, not with
the `INVALID_CREDENTIALS` the claim asserts for every presented
password. -/
theorem c10_counterexample :
    pyOr rowNoSecret.cd_senha none = none
    ∧ authenticate sampleCfg [rowNoSecret] "G99999" "" 1 0 =
        .failure "Usuario e senha sao obrigatorios" "MISSING_CREDENTIALS"
    ∧ AuthResult.failure "Usuario e senha sao obrigatorios" "MISSING_CREDENTIALS" ≠
        .failure "Credenciais invalidas ou usuario inativo" "INVALID_CREDENTIALS" := by
  refine ⟨by rfl, by rfl, by decide⟩

/-- C10 amended: a store record whose extracted secret is null always fails
Oracle validation, so for every non-empty presented password — including a
whitespace-only one — authentication answers `INVALID_CREDENTIALS`; an
empty presented password is rejected earlier as `MISSING_CREDENTIALS`; in
no case does such a user log in. -/
theorem c10_null_secret_amended (cfg : AppConfig) (db : List UserRow) (u p : String)
    (e now : Int) (row : UserRow)
    (hu : u ≠ "") (he : e ≠ 0)
    (hf : findUser db u = some row)
    (hsec : pyOr row.cd_senha none = none) :
    validateUserInOracle db u p e = none
    ∧ (p ≠ "" → authenticate cfg db u p e now =
        .failure "Credenciais invalidas ou usuario inativo" "INVALID_CREDENTIALS")
    ∧ (p = "" → authenticate cfg db u p e now =
        .failure "Usuario e senha sao obrigatorios" "MISSING_CREDENTIALS")
    ∧ (∀ tok ud, authenticate cfg db u p e now ≠ .success tok ud) := by
  have hv : validateUserInOracle db u p e = none :=
    validate_none_of_no_secret db u p e row hf hsec
  refine ⟨hv, fun hp => ?_, fun hp => ?_, fun tok ud => ?_⟩
  · exact authenticate_invalid_of_validate_none cfg db u p e now hu hp he hv
  · unfold authenticate
    simp [hp]
  · simp only [authenticate, hv]
    split <;> simp

/-- C10 witness: a whitespace-only password against the secretless record
yields `INVALID_CREDENTIALS`. -/
theorem c10_witness :
    authenticate sampleCfg [rowNoSecret] "G99999" " " 1 0 =
      .failure "Credenciais invalidas ou usuario inativo" "INVALID_CREDENTIALS" :=
  (c10_null_secret_amended sampleCfg [rowNoSecret] "G99999" " " 1 0 rowNoSecret
    (by decide) (by decide) (by rfl) (by rfl)).2.1 (by decide)

end Intranett
